import Mathlib

/-!
Verification development for the sigades-map geospatial/complaint core.

The Python source (`app/complaint_service.py`, `app/geo_service.py`,
`app/models.py`) is shallowly embedded below: database tables become lists of
records, fixed-precision decimal coordinates become rationals, byte payloads
become lists of naturals, and each service method becomes a pure function on
an explicit store state.  Identity and timestamp fields that the database
assigns are modelled as plain naturals supplied by the store.
-/

namespace Sigades

/-- Embeds `ComplaintStatus` from `app/models.py`: submitted / redirected /
completed. -/
inductive ComplaintStatus where
  | submitted
  | redirected
  | completed
  deriving DecidableEq, Repr

/-- Embeds the `Complaint` table from `app/models.py`.  The latitude and
longitude columns are fixed-precision decimals in the source and are modelled
exactly as rationals; `created_at` is a timestamp modelled as a natural
number; `submit_ip`, `submitter_email` and `submitter_phone` play no role in
any verified operation and are elided. -/
structure Complaint where
  id : Nat
  title : String
  description : String
  latitude : ℚ
  longitude : ℚ
  location_description : String
  submitter_name : Option String
  status : ComplaintStatus
  facebook_redirected : Bool
  lapor_redirected : Bool
  created_at : Nat
  deriving DecidableEq, Repr

/-- Python's `str.lower()` on the ASCII platform strings involved, modelled
character-wise. -/
def lowerString (s : String) : String := ⟨s.data.map Char.toLower⟩

/-- Embeds the per-complaint mutation performed by
`ComplaintService.mark_redirected` (`app/complaint_service.py`, lines
201-210): a recognized platform (compared case-insensitively) sets the
corresponding redirect flag, and then the status is recomputed — `COMPLETED`
when both flags are set, otherwise `REDIRECTED`. -/
def markRedirectedUpdate (c : Complaint) (platform : String) : Complaint :=
  let c1 :=
    if lowerString platform = "facebook" then { c with facebook_redirected := true }
    else if lowerString platform = "lapor" then { c with lapor_redirected := true }
    else c
  if c1.facebook_redirected && c1.lapor_redirected then { c1 with status := .completed }
  else { c1 with status := .redirected }

/-- The pure status function of the two redirect flags described by the
specification's state machine: `SUBMITTED` with no flag, `REDIRECTED` with
exactly one, `COMPLETED` with both. -/
def statusOfFlags (fb lp : Bool) : ComplaintStatus :=
  match fb, lp with
  | false, false => .submitted
  | true, true => .completed
  | _, _ => .redirected

/-- A platform string that `mark_redirected` recognizes: "facebook" or
"lapor" in any letter case. -/
def validPlatform (p : String) : Prop :=
  lowerString p = "facebook" ∨ lowerString p = "lapor"

instance : DecidablePred validPlatform := fun p => by
  unfold validPlatform; infer_instance

/-- The redirect flag named by platform `p` is already set on `c`. -/
def flagAlreadySet (c : Complaint) (p : String) : Prop :=
  (lowerString p = "facebook" ∧ c.facebook_redirected = true) ∨
    (lowerString p = "lapor" ∧ c.lapor_redirected = true)

instance : ∀ c p, Decidable (flagAlreadySet c p) := fun c p => by
  unfold flagAlreadySet; infer_instance

/-- The complaint's status agrees with the pure function of its two redirect
flags. -/
def statusInvariant (c : Complaint) : Prop :=
  c.status = statusOfFlags c.facebook_redirected c.lapor_redirected

instance : DecidablePred statusInvariant := fun c => by
  unfold statusInvariant; infer_instance

theorem markRedirectedUpdate_valid_invariant (c : Complaint) (p : String)
    (hp : validPlatform p) : statusInvariant (markRedirectedUpdate c p) := by
  rcases hp with h | h <;>
    · simp only [markRedirectedUpdate, statusInvariant, h]
      cases hfb : c.facebook_redirected <;> cases hlp : c.lapor_redirected <;>
        simp [statusOfFlags, hfb, hlp]

theorem foldl_markRedirectedUpdate_invariant (ps : List String) :
    ∀ c : Complaint, statusInvariant c → (∀ p ∈ ps, validPlatform p) →
      statusInvariant (ps.foldl markRedirectedUpdate c) := by
  induction ps with
  | nil => intro c hc _; exact hc
  | cons p ps ih =>
      intro c hc hps
      simp only [List.foldl_cons]
      exact ih _ (markRedirectedUpdate_valid_invariant c p (hps p (by simp)))
        (fun q hq => hps q (by simp [hq]))

theorem markRedirectedUpdate_idem (c : Complaint) (p : String)
    (hc : statusInvariant c) (hset : flagAlreadySet c p) :
    markRedirectedUpdate c p = c := by
  obtain ⟨id, t, d, la, lo, ld, sn, st, fb, lp, ca⟩ := c
  simp only [statusInvariant] at hc
  subst hc
  rcases hset with ⟨h, hfb⟩ | ⟨h, hlp⟩
  · simp only at hfb
    subst hfb
    cases lp <;> simp [markRedirectedUpdate, h, statusOfFlags]
  · simp only at hlp
    subst hlp
    cases fb <;> simp [markRedirectedUpdate, h, statusOfFlags]

/-- C1: for every complaint whose status agrees with its two redirect flags
(as a freshly created complaint does), any sequence of `markRedirected` calls
with platform "facebook" or "lapor" (any letter case) preserves that
agreement — the status is always `statusOfFlags` of the flags — and marking a
platform whose flag is already set leaves the complaint entirely unchanged
(idempotence). -/
theorem mark_redirected_state_machine (c : Complaint) (ps : List String)
    (hc : statusInvariant c) (hps : ∀ p ∈ ps, validPlatform p) :
    statusInvariant (ps.foldl markRedirectedUpdate c) ∧
      (∀ d : Complaint, ∀ p : String, statusInvariant d → validPlatform p →
        flagAlreadySet d p → markRedirectedUpdate d p = d) := by
  refine ⟨foldl_markRedirectedUpdate_invariant ps c hc hps, ?_⟩
  intro d p hd _ hset
  exact markRedirectedUpdate_idem d p hd hset

/-- A concrete freshly submitted complaint, as created by
`ComplaintService.create_complaint`. -/
def exampleComplaint : Complaint :=
  { id := 1
    title := "Jalan rusak"
    description := "Jalan berlubang"
    latitude := -855/100
    longitude := 11615/100
    location_description := ""
    submitter_name := none
    status := .submitted
    facebook_redirected := false
    lapor_redirected := false
    created_at := 0 }

/-- Witness for C1 at a concrete complaint and the sequence
["facebook", "LAPOR", "Facebook"]. -/
theorem mark_redirected_state_machine_witness :
    statusInvariant (["facebook", "LAPOR", "Facebook"].foldl
        markRedirectedUpdate exampleComplaint) ∧
      (∀ d : Complaint, ∀ p : String, statusInvariant d → validPlatform p →
        flagAlreadySet d p → markRedirectedUpdate d p = d) :=
  mark_redirected_state_machine exampleComplaint ["facebook", "LAPOR", "Facebook"]
    (by decide) (by decide)

/-- C2 (code evaluated at the failing input): a `markRedirected` call with
the unrecognized platform "twitter" on a freshly submitted complaint sets no
redirect flag, yet changes the status from `SUBMITTED` to `REDIRECTED` — the
status recomputation at lines 207-210 of `app/complaint_service.py` runs even
when no flag was set, contradicting the documented state machine. -/
theorem mark_redirected_unknown_platform_bug :
    (markRedirectedUpdate exampleComplaint "twitter").facebook_redirected = false ∧
      (markRedirectedUpdate exampleComplaint "twitter").lapor_redirected = false ∧
      exampleComplaint.status = ComplaintStatus.submitted ∧
      (markRedirectedUpdate exampleComplaint "twitter").status =
        ComplaintStatus.redirected := by
  decide

/-! ## Photo attachment (`ComplaintService.add_photo_to_complaint`) -/

/-- Executable stand-in for Python's builtin `hash` on strings, used at
`app/complaint_service.py` line 78 and `app/geo_service.py` line 157.  The
builtin is an unspecified platform hash; the development relies only on the
property the source itself relies on: it is a deterministic function of its
string argument alone. -/
def pyHash (s : String) : Nat :=
  s.data.foldl (fun h c => h * 31 + c.toNat) 7

/-- Embeds `ALLOWED_PHOTO_TYPES` from `app/complaint_service.py` line 23. -/
def ALLOWED_PHOTO_TYPES : List String :=
  ["image/jpeg", "image/png", "image/gif", "image/webp"]

/-- Embeds `MAX_PHOTO_SIZE = 5 * 1024 * 1024` from `app/complaint_service.py`
line 24. -/
def MAX_PHOTO_SIZE : Nat := 5 * 1024 * 1024

/-- Embeds the `ComplaintPhoto` table from `app/models.py` (database-assigned
identity and timestamp elided). -/
structure ComplaintPhoto where
  complaint_id : Nat
  filename : String
  file_path : String
  file_size : Nat
  mime_type : String
  caption : String
  display_order : Int
  deriving DecidableEq, Repr

/-- The validation failures of `add_photo_to_complaint`: the two `ValueError`
raises at lines 67-71 of `app/complaint_service.py`. -/
inductive PhotoError where
  | unsupportedMediaType
  | payloadTooLarge
  deriving DecidableEq, Repr

/-- The complaint-side persistent state: the complaint and photo tables plus
the on-disk blob store (path ↦ bytes). -/
structure ComplaintStore where
  complaints : List Complaint
  photos : List ComplaintPhoto
  files : List (String × List Nat)
  deriving DecidableEq, Repr

/-- Splits a character list at every dot, embedding Python's
`filename.split(".")`. -/
def splitOnDot : List Char → List (List Char)
  | [] => [[]]
  | c :: cs =>
      let rest := splitOnDot cs
      if c = '.' then [] :: rest
      else
        match rest with
        | [] => [[c]]
        | r :: rs => (c :: r) :: rs

/-- Embeds line 77 of `app/complaint_service.py`:
`filename.split(".")[-1] if "." in filename else "jpg"`. -/
def photoFileExtension (filename : String) : String :=
  if filename.data.contains '.' then ⟨(splitOnDot filename.data).getLastD []⟩
  else "jpg"

/-- Embeds line 78 of `app/complaint_service.py`: the generated on-disk file
name `complaint_{id}_{hash(filename + str(len(content)))}.{extension}`. -/
def photoSafeFilename (complaint_id : Nat) (filename : String)
    (file_content : List Nat) : String :=
  "complaint_" ++ toString complaint_id ++ "_"
    ++ toString (pyHash (filename ++ toString file_content.length))
    ++ "." ++ photoFileExtension filename

/-- The `ComplaintPhoto` row built at lines 87-95 of
`app/complaint_service.py`. -/
def photoRecord (complaint_id : Nat) (file_content : List Nat)
    (filename mime_type caption : String) (display_order : Int) :
    ComplaintPhoto :=
  { complaint_id := complaint_id
    filename := filename
    file_path :=
      "uploads/complaint_photos/" ++ photoSafeFilename complaint_id filename file_content
    file_size := file_content.length
    mime_type := mime_type
    caption := caption
    display_order := display_order }

/-- Embeds `ComplaintService.add_photo_to_complaint`
(`app/complaint_service.py`, lines 60-106): validates the MIME type, then
the payload size, and only then writes the file to the upload directory and
inserts the `ComplaintPhoto` row.  A raised `ValueError` becomes an `Except`
error carrying no new state — nothing is stored.  No lookup of the complaint
id is performed anywhere in the function. -/
def add_photo_to_complaint (st : ComplaintStore) (complaint_id : Nat)
    (file_content : List Nat) (filename : String) (mime_type : String)
    (caption : String) (display_order : Int) :
    Except PhotoError (ComplaintPhoto × ComplaintStore) :=
  if mime_type ∉ ALLOWED_PHOTO_TYPES then .error .unsupportedMediaType
  else if file_content.length > MAX_PHOTO_SIZE then .error .payloadTooLarge
  else
    let photo := photoRecord complaint_id file_content filename mime_type caption display_order
    .ok (photo,
      { st with
        files := st.files ++ [(photo.file_path, file_content)]
        photos := st.photos ++ [photo] })

/-- C3: `attachPhoto` fails with `UnsupportedMediaType` on a MIME type
outside {jpeg, png, gif, webp}; with an allowed MIME type it fails with
`PayloadTooLarge` on a payload over 5,242,880 bytes; on either failure the
result is an error carrying no new state, so no photo record is stored and
no file is written; an allowed MIME type within the size limit yields a
stored photo record. -/
theorem add_photo_validation (st : ComplaintStore) (complaint_id : Nat)
    (file_content : List Nat) (filename mime_type caption : String)
    (display_order : Int) :
    (mime_type ∉ ALLOWED_PHOTO_TYPES →
      add_photo_to_complaint st complaint_id file_content filename mime_type
          caption display_order = .error .unsupportedMediaType) ∧
    (mime_type ∈ ALLOWED_PHOTO_TYPES → file_content.length > MAX_PHOTO_SIZE →
      add_photo_to_complaint st complaint_id file_content filename mime_type
          caption display_order = .error .payloadTooLarge) ∧
    (mime_type ∈ ALLOWED_PHOTO_TYPES → file_content.length ≤ MAX_PHOTO_SIZE →
      ∃ photo st',
        add_photo_to_complaint st complaint_id file_content filename mime_type
            caption display_order = .ok (photo, st') ∧
        st'.photos = st.photos ++ [photo] ∧
        photo.mime_type = mime_type ∧ photo.file_size = file_content.length) := by
  refine ⟨fun h => ?_, fun h1 h2 => ?_, fun h1 h2 => ?_⟩
  · simp [add_photo_to_complaint, h]
  · simp [add_photo_to_complaint, h1, h2]
  · refine ⟨photoRecord complaint_id file_content filename mime_type caption display_order,
      { st with
        files := st.files ++
          [((photoRecord complaint_id file_content filename mime_type caption
              display_order).file_path, file_content)]
        photos := st.photos ++
          [photoRecord complaint_id file_content filename mime_type caption
            display_order] },
      ?_, rfl, rfl, rfl⟩
    simp [add_photo_to_complaint, h1, Nat.not_lt.mpr h2]

/-- An empty complaint store. -/
def emptyComplaintStore : ComplaintStore :=
  { complaints := [], photos := [], files := [] }

/-- A concrete 10-byte payload. -/
def tenBytes : List Nat := [1, 2, 3, 4, 5, 6, 7, 8, 9, 10]

/-- Witness for C3: a PDF payload is rejected as unsupported media, a
6 MiB JPEG payload is rejected as too large, and a 10-byte JPEG payload is
accepted and stored. -/
theorem add_photo_validation_witness :
    (add_photo_to_complaint emptyComplaintStore 1 tenBytes "doc.pdf"
        "application/pdf" "" 0 = .error .unsupportedMediaType) ∧
    (add_photo_to_complaint emptyComplaintStore 1 (List.replicate 6291456 0)
        "big.jpg" "image/jpeg" "" 0 = .error .payloadTooLarge) ∧
    (∃ photo st',
      add_photo_to_complaint emptyComplaintStore 1 tenBytes "p.jpg"
          "image/jpeg" "" 0 = .ok (photo, st') ∧
      st'.photos = emptyComplaintStore.photos ++ [photo] ∧
      photo.mime_type = "image/jpeg" ∧ photo.file_size = tenBytes.length) :=
  ⟨(add_photo_validation emptyComplaintStore 1 tenBytes "doc.pdf"
      "application/pdf" "" 0).1 (by decide),
   (add_photo_validation emptyComplaintStore 1 (List.replicate 6291456 0)
      "big.jpg" "image/jpeg" "" 0).2.1 (by decide)
      (by rw [List.length_replicate]; decide),
   (add_photo_validation emptyComplaintStore 1 tenBytes "p.jpg"
      "image/jpeg" "" 0).2.2 (by decide) (by decide)⟩

/-- C10: `add_photo_to_complaint` performs no existence check on the
complaint id — even when no stored complaint has that id, a payload passing
the MIME and size validation is written to disk and a `ComplaintPhoto`
record referencing that id is created; no not-found failure exists on this
path (the error type has only the two validation failures). -/
theorem add_photo_no_existence_check (st : ComplaintStore) (complaint_id : Nat)
    (file_content : List Nat) (filename mime_type caption : String)
    (display_order : Int)
    (_hmissing : ∀ c ∈ st.complaints, c.id ≠ complaint_id)
    (hmime : mime_type ∈ ALLOWED_PHOTO_TYPES)
    (hsize : file_content.length ≤ MAX_PHOTO_SIZE) :
    ∃ photo st',
      add_photo_to_complaint st complaint_id file_content filename mime_type
          caption display_order = .ok (photo, st') ∧
      photo.complaint_id = complaint_id ∧
      st'.photos = st.photos ++ [photo] ∧
      st'.files = st.files ++ [(photo.file_path, file_content)] := by
  refine ⟨photoRecord complaint_id file_content filename mime_type caption display_order,
    { st with
      files := st.files ++
        [((photoRecord complaint_id file_content filename mime_type caption
            display_order).file_path, file_content)]
      photos := st.photos ++
        [photoRecord complaint_id file_content filename mime_type caption
          display_order] },
    ?_, rfl, rfl, rfl⟩
  simp [add_photo_to_complaint, hmime, Nat.not_lt.mpr hsize]

/-- Witness for C10: attaching a valid photo to the absent complaint id 999
on an empty store succeeds and records a photo referencing id 999. -/
theorem add_photo_no_existence_check_witness :
    ∃ photo st',
      add_photo_to_complaint emptyComplaintStore 999 tenBytes "p.jpg"
          "image/jpeg" "" 0 = .ok (photo, st') ∧
      photo.complaint_id = 999 ∧
      st'.photos = emptyComplaintStore.photos ++ [photo] ∧
      st'.files = emptyComplaintStore.files ++ [(photo.file_path, tenBytes)] :=
  add_photo_no_existence_check emptyComplaintStore 999 tenBytes "p.jpg"
    "image/jpeg" "" 0 (by decide) (by decide) (by decide)

/-! ## Geospatial service (`app/geo_service.py`) -/

/-- The metadata dictionary attached by the ingestion stubs
(`app/geo_service.py` lines 89 and 124). -/
structure GeoMetadata where
  source_file : String
  processed : Bool
  format : String
  deriving DecidableEq, Repr

/-- The normalized feature-collection dictionary produced by the ingestion
pipeline and stored as layer geometry.  The stubbed extractors never emit
features, so the feature element type is unit; seeded placeholders carry no
metadata key, modelled by `Option`. -/
structure FeatureCollection where
  type : String
  features : List Unit
  metadata : Option GeoMetadata
  deriving DecidableEq, Repr

/-- Ingestion failure: a KMZ archive with no `.kml` entry (the `ValueError`
at `app/geo_service.py` line 106). -/
inductive GeoError where
  | corruptArchive
  deriving DecidableEq, Repr

/-- Embeds `GeospatialService.process_kml_file` (`app/geo_service.py`, lines
80-92): returns the stub feature collection tagged with the source
filename. -/
def process_kml_file (_file_content : List Nat) (filename : String) :
    Except GeoError FeatureCollection :=
  .ok { type := "FeatureCollection"
        features := []
        metadata := some { source_file := filename, processed := true, format := "kml" } }

/-- Embeds Python's `name.endswith(".kml")`, character-wise. -/
def endsWithDotKml (name : String) : Bool :=
  name.data.reverse.take 4 == ['l', 'm', 'k', '.']

/-- Embeds `GeospatialService.process_kmz_file` (`app/geo_service.py`, lines
94-113): the KMZ archive is its list of (entry name, entry bytes) pairs; the
function selects the entries whose name ends in `.kml`, fails when there are
none, and otherwise delegates to the KML path on the first such entry's
bytes and name.  The uploaded `filename` argument is never used. -/
def process_kmz_file (entries : List (String × List Nat)) (_filename : String) :
    Except GeoError FeatureCollection :=
  match entries.filter (fun e => endsWithDotKml e.1) with
  | [] => .error .corruptArchive
  | e :: _ => process_kml_file e.2 e.1

/-- C4: KMZ ingestion fails with `CorruptArchive` when no archive entry name
ends in `.kml`; otherwise it delegates to the KML path on the first such
entry, recording that entry's name (not the uploaded filename) as the source
file in the result's metadata and ignoring all further `.kml` entries; the
uploaded filename never influences the result. -/
theorem process_kmz_first_kml (entries : List (String × List Nat))
    (filename : String) :
    (entries.filter (fun e => endsWithDotKml e.1) = [] →
      process_kmz_file entries filename = .error .corruptArchive) ∧
    (∀ e rest, entries.filter (fun e => endsWithDotKml e.1) = e :: rest →
      process_kmz_file entries filename = process_kml_file e.2 e.1 ∧
      ∃ fc, process_kmz_file entries filename = .ok fc ∧
        fc.metadata = some { source_file := e.1, processed := true, format := "kml" }) ∧
    (∀ other : String, process_kmz_file entries filename = process_kmz_file entries other) := by
  refine ⟨fun h => ?_, fun e rest h => ?_, fun other => ?_⟩
  · simp [process_kmz_file, h]
  · refine ⟨by simp [process_kmz_file, h], ?_⟩
    simp [process_kmz_file, h, process_kml_file]
  · simp [process_kmz_file]

/-- Witness for C4: an archive with only a PNG entry is corrupt; an archive
with two `.kml` entries delegates to the first one, using its name. -/
theorem process_kmz_first_kml_witness :
    process_kmz_file [("img.png", [1])] "upload.kmz" = .error .corruptArchive ∧
    (process_kmz_file [("img.png", [1]), ("doc.kml", [2]), ("later.kml", [3])]
          "upload.kmz"
        = process_kml_file [2] "doc.kml" ∧
      ∃ fc,
        process_kmz_file [("img.png", [1]), ("doc.kml", [2]), ("later.kml", [3])]
            "upload.kmz" = .ok fc ∧
        fc.metadata = some { source_file := "doc.kml", processed := true, format := "kml" }) :=
  ⟨(process_kmz_first_kml [("img.png", [1])] "upload.kmz").1 (by decide),
   (process_kmz_first_kml
      [("img.png", [1]), ("doc.kml", [2]), ("later.kml", [3])] "upload.kmz").2.1
      ("doc.kml", [2]) [("later.kml", [3])] (by decide)⟩

/-- Embeds `GeospatialService.calculate_area` (`app/geo_service.py`, lines
197-211): shoelace formula over planar (x, y) pairs, modelled exactly over
the rationals.  The Python loop `area += x_i * y_j; area -= x_j * y_i` with
`j = (i + 1) % n` becomes a fold over `range n`. -/
def calculate_area (coordinates : List (ℚ × ℚ)) : ℚ :=
  if coordinates.length < 3 then 0
  else
    let n := coordinates.length
    let area := (List.range n).foldl
      (fun acc i =>
        acc + (coordinates.getD i (0, 0)).1 * (coordinates.getD ((i + 1) % n) (0, 0)).2
          - (coordinates.getD ((i + 1) % n) (0, 0)).1 * (coordinates.getD i (0, 0)).2)
      0
    |area| / 2

/-- The cyclic shoelace sum named by the specification:
`Σ (xᵢ·y_{i+1} − x_{i+1}·yᵢ)` with the index `i + 1` wrapping to `0`. -/
def shoelaceSum (coordinates : List (ℚ × ℚ)) : ℚ :=
  ∑ i ∈ Finset.range coordinates.length,
    ((coordinates.getD i (0, 0)).1
        * (coordinates.getD ((i + 1) % coordinates.length) (0, 0)).2
      - (coordinates.getD ((i + 1) % coordinates.length) (0, 0)).1
        * (coordinates.getD i (0, 0)).2)

theorem foldl_shoelace (p q : Nat → ℚ) (n : Nat) :
    ∀ a : ℚ, (List.range n).foldl (fun acc i => acc + p i - q i) a
      = a + ∑ i ∈ Finset.range n, (p i - q i) := by
  induction n with
  | zero => intro a; simp
  | succ n ih =>
      intro a
      rw [List.range_succ, List.foldl_append, ih, Finset.sum_range_succ]
      simp only [List.foldl_cons, List.foldl_nil]
      ring

theorem calculate_area_eq (coordinates : List (ℚ × ℚ))
    (h : 3 ≤ coordinates.length) :
    calculate_area coordinates = |shoelaceSum coordinates| / 2 := by
  simp only [calculate_area]
  rw [if_neg (Nat.not_lt.mpr h)]
  rw [foldl_shoelace
    (fun i => (coordinates.getD i (0, 0)).1
      * (coordinates.getD ((i + 1) % coordinates.length) (0, 0)).2)
    (fun i => (coordinates.getD ((i + 1) % coordinates.length) (0, 0)).1
      * (coordinates.getD i (0, 0)).2)]
  rw [zero_add]
  rfl

/-- C8: `polygonArea` returns 0 on fewer than 3 points, and otherwise the
absolute value of the cyclic shoelace sum divided by 2 — always
non-negative; on the unit right triangle it returns 1/2 and on the 2×2
square it returns 4. -/
theorem calculate_area_shoelace (coordinates : List (ℚ × ℚ)) :
    (coordinates.length < 3 → calculate_area coordinates = 0) ∧
    (3 ≤ coordinates.length →
      calculate_area coordinates = |shoelaceSum coordinates| / 2) ∧
    0 ≤ calculate_area coordinates ∧
    calculate_area [(0, 0), (1, 0), (0, 1)] = 1 / 2 ∧
    calculate_area [(0, 0), (2, 0), (2, 2), (0, 2)] = 4 := by
  have htri : calculate_area [(0, 0), (1, 0), (0, 1)] = 1 / 2 := by
    have h : calculate_area [(0, 0), (1, 0), (0, 1)]
        = |(0 + 0 * 0 - 1 * 0 + 1 * 1 - 0 * 0 + 0 * 0 - 0 * 1 : ℚ)| / 2 := rfl
    rw [h]; norm_num
  have hsq : calculate_area [(0, 0), (2, 0), (2, 2), (0, 2)] = 4 := by
    have h : calculate_area [(0, 0), (2, 0), (2, 2), (0, 2)]
        = |(0 + 0 * 0 - 2 * 0 + 2 * 2 - 2 * 0 + 2 * 2 - 0 * 2 + 0 * 0 - 0 * 2 : ℚ)| / 2 :=
      rfl
    rw [h]; norm_num
  refine ⟨fun h => by rw [calculate_area, if_pos h], calculate_area_eq coordinates,
    ?_, htri, hsq⟩
  by_cases h : coordinates.length < 3
  · rw [calculate_area, if_pos h]
  · rw [calculate_area_eq coordinates (Nat.not_lt.mp h)]
    exact div_nonneg (abs_nonneg _) (by norm_num)

/-- Witness for C8: a 1-point polygon has area 0, and the unit right
triangle's area equals half the absolute shoelace sum. -/
theorem calculate_area_shoelace_witness :
    calculate_area [((0 : ℚ), (0 : ℚ))] = 0 ∧
    calculate_area [(0, 0), (1, 0), (0, 1)]
      = |shoelaceSum [(0, 0), (1, 0), (0, 1)]| / 2 :=
  ⟨(calculate_area_shoelace [((0 : ℚ), (0 : ℚ))]).1 (by decide),
   (calculate_area_shoelace [(0, 0), (1, 0), (0, 1)]).2.1 (by decide)⟩

/-- Embeds line 157 of `app/geo_service.py`: the user-layer storage path
`uploads/user_layers/{hash(filename + str(len(file_content)))}-{filename}`. -/
def user_layer_file_path (filename : String) (file_content : List Nat) : String :=
  "uploads/user_layers/"
    ++ toString (pyHash (filename ++ toString file_content.length))
    ++ "-" ++ filename

/-- C9 counterexample: two uploads named "area.kml" with different two-byte
contents receive the identical storage path — the disambiguator hashes only
the filename and the byte count, never the content bytes. -/
theorem user_layer_path_collision :
    user_layer_file_path "area.kml" [97, 97] = user_layer_file_path "area.kml" [97, 98] ∧
      [97, 97] ≠ [97, 98] := by decide

/-- C9 amended: the storage path is a function of the filename and the
content's byte length only; two uploads with the same filename and contents
of equal byte length always receive the same path, so the path is not unique
per upload. -/
theorem user_layer_path_length_function (filename : String) (c1 c2 : List Nat)
    (h : c1.length = c2.length) :
    user_layer_file_path filename c1 = user_layer_file_path filename c2 := by
  simp [user_layer_file_path, h]

/-- Witness for the amended C9 at concrete equal-length contents. -/
theorem user_layer_path_length_function_witness :
    user_layer_file_path "a.kml" [1, 2, 3] = user_layer_file_path "a.kml" [4, 5, 6] :=
  user_layer_path_length_function "a.kml" [1, 2, 3] [4, 5, 6] (by decide)

/-! ## Layer store (`app/geo_service.py` with `app/models.py`) -/

/-- Embeds `LayerType` from `app/models.py`. -/
inductive LayerType where
  | rice_fields
  | irrigation
  | regency_roads
  | regency_boundaries
  | village_boundaries
  | user_uploaded
  deriving DecidableEq, Repr

/-- The string value of a `LayerType` member (it is a `str` enum). -/
def LayerType.value : LayerType → String
  | .rice_fields => "rice_fields"
  | .irrigation => "irrigation"
  | .regency_roads => "regency_roads"
  | .regency_boundaries => "regency_boundaries"
  | .village_boundaries => "village_boundaries"
  | .user_uploaded => "user_uploaded"

/-- Embeds `FileType` from `app/models.py`. -/
inductive FileType where
  | kml
  | kmz
  | shp
  deriving DecidableEq, Repr

/-- A style dictionary: the keys used by the source's style records.  The
road layer omits the fill keys, modelled with `Option`. -/
structure StyleProps where
  color : String
  weight : Nat
  opacity : ℚ
  fillColor : Option String
  fillOpacity : Option ℚ
  deriving DecidableEq, Repr

/-- Embeds the `StaticLayer` table from `app/models.py` (database-assigned
identity and timestamps elided). -/
structure StaticLayer where
  name : String
  layer_type : LayerType
  description : String
  source : String
  geom_data : FeatureCollection
  style_properties : StyleProps
  is_active : Bool
  display_order : Int
  deriving DecidableEq, Repr

/-- Embeds the `UserLayer` table from `app/models.py` (database-assigned
identity elided; `created_at` modelled as a natural-number timestamp). -/
structure UserLayer where
  name : String
  description : String
  file_type : FileType
  original_filename : String
  file_path : String
  file_size : Nat
  geom_data : FeatureCollection
  style_properties : StyleProps
  is_public : Bool
  is_active : Bool
  created_at : Nat
  deriving DecidableEq, Repr

/-- Embeds `LayerResponse` from `app/models.py` (identity elided;
`created_at` kept as the timestamp it serializes). -/
structure LayerResponse where
  name : String
  description : String
  layer_type : String
  is_active : Bool
  geom_data : FeatureCollection
  style_properties : StyleProps
  created_at : Nat
  deriving DecidableEq, Repr

/-- The layer-side persistent state: the two layer tables. -/
structure GeoStore where
  static_layers : List StaticLayer
  user_layers : List UserLayer
  deriving DecidableEq, Repr

/-- The `LayerResponse` built from a static layer at lines 28-39 of
`app/geo_service.py`. -/
def staticToResponse (l : StaticLayer) : LayerResponse :=
  { name := l.name
    description := l.description
    layer_type := l.layer_type.value
    is_active := l.is_active
    geom_data := l.geom_data
    style_properties := l.style_properties
    created_at := 0 }

/-- The `LayerResponse` built from a user layer at lines 48-60 of
`app/geo_service.py`: the layer type is the literal "user_uploaded". -/
def userToResponse (l : UserLayer) : LayerResponse :=
  { name := l.name
    description := l.description
    layer_type := "user_uploaded"
    is_active := l.is_active
    geom_data := l.geom_data
    style_properties := l.style_properties
    created_at := l.created_at }

/-- Display-order ascending, the `ORDER BY display_order` of line 24. -/
def staticOrder (a b : StaticLayer) : Prop := a.display_order ≤ b.display_order

instance : DecidableRel staticOrder := fun a b => by unfold staticOrder; infer_instance

instance : IsTotal StaticLayer staticOrder := ⟨fun _ _ => le_total _ _⟩

instance : IsTrans StaticLayer staticOrder := ⟨fun _ _ _ hab hbc => le_trans hab hbc⟩

/-- Creation time descending, the `ORDER BY created_at DESC` of line 45. -/
def userOrder (a b : UserLayer) : Prop := b.created_at ≤ a.created_at

instance : DecidableRel userOrder := fun a b => by unfold userOrder; infer_instance

instance : IsTotal UserLayer userOrder := ⟨fun _ _ => le_total _ _⟩

instance : IsTrans UserLayer userOrder := ⟨fun _ _ _ hab hbc => le_trans hbc hab⟩

/-- Embeds `GeospatialService.get_all_active_layers` (`app/geo_service.py`,
lines 16-62): active static layers ordered by display-order ascending,
followed by active public user layers ordered by creation time descending,
each mapped to a `LayerResponse`. -/
def get_all_active_layers (st : GeoStore) : List LayerResponse :=
  (List.insertionSort staticOrder (st.static_layers.filter (fun l => l.is_active))).map
      staticToResponse
    ++ (List.insertionSort userOrder
        (st.user_layers.filter (fun l => l.is_active && l.is_public))).map userToResponse

/-- C6: `listActiveLayers` returns exactly the active static layers sorted
by display-order ascending, followed (never interleaved) by exactly the
active public user layers sorted by creation time descending; every returned
static layer is active and every returned user layer is active and public,
so inactive static layers and inactive or private user layers never
appear. -/
theorem get_all_active_layers_spec (st : GeoStore) :
    ∃ (A : List StaticLayer) (B : List UserLayer),
      get_all_active_layers st = A.map staticToResponse ++ B.map userToResponse ∧
      List.Perm A (st.static_layers.filter (fun l => l.is_active)) ∧
      List.Sorted staticOrder A ∧
      List.Perm B (st.user_layers.filter (fun l => l.is_active && l.is_public)) ∧
      List.Sorted userOrder B ∧
      (∀ l ∈ A, l.is_active = true) ∧
      (∀ l ∈ B, l.is_active = true ∧ l.is_public = true) := by
  refine ⟨List.insertionSort staticOrder (st.static_layers.filter (fun l => l.is_active)),
    List.insertionSort userOrder (st.user_layers.filter (fun l => l.is_active && l.is_public)),
    rfl, List.perm_insertionSort _ _, List.sorted_insertionSort _ _,
    List.perm_insertionSort _ _, List.sorted_insertionSort _ _, ?_, ?_⟩
  · intro l hl
    have hm := (List.Perm.mem_iff (List.perm_insertionSort _ _)).mp hl
    simpa using (List.mem_filter.mp hm).2
  · intro l hl
    have hm := (List.Perm.mem_iff (List.perm_insertionSort _ _)).mp hl
    have := (List.mem_filter.mp hm).2
    simp only [Bool.and_eq_true] at this
    exact this

/-- A concrete user layer for witnesses. -/
def exampleUserLayer : UserLayer :=
  { name := "Uploaded"
    description := ""
    file_type := .kml
    original_filename := "a.kml"
    file_path := "uploads/user_layers/x-a.kml"
    file_size := 3
    geom_data := { type := "FeatureCollection", features := [], metadata := none }
    style_properties :=
      { color := "#3388ff", weight := 3, opacity := 8/10,
        fillColor := some "#3388ff", fillOpacity := some (2/10) }
    is_public := true
    is_active := true
    created_at := 10 }

/-- A concrete static layer for witnesses. -/
def exampleStaticLayer : StaticLayer :=
  { name := "Sawah (Rice Fields)"
    layer_type := .rice_fields
    description := ""
    source := "BIG"
    geom_data := { type := "FeatureCollection", features := [], metadata := none }
    style_properties :=
      { color := "#4CAF50", weight := 2, opacity := 8/10,
        fillColor := some "#81C784", fillOpacity := some (6/10) }
    is_active := true
    display_order := 1 }

/-- A concrete layer store mixing active, inactive, public and private
layers, for witnesses. -/
def exampleGeoStore : GeoStore :=
  { static_layers :=
      [exampleStaticLayer,
       { exampleStaticLayer with name := "Hidden", is_active := false, display_order := 2 }]
    user_layers :=
      [exampleUserLayer,
       { exampleUserLayer with name := "Private", is_public := false, created_at := 20 }] }

/-- Witness for C6: the characterization instantiated at a concrete store
holding active, inactive, public and private layers. -/
theorem get_all_active_layers_spec_witness :
    ∃ (A : List StaticLayer) (B : List UserLayer),
      get_all_active_layers exampleGeoStore = A.map staticToResponse ++ B.map userToResponse ∧
      List.Perm A (exampleGeoStore.static_layers.filter (fun l => l.is_active)) ∧
      List.Sorted staticOrder A ∧
      List.Perm B (exampleGeoStore.user_layers.filter (fun l => l.is_active && l.is_public)) ∧
      List.Sorted userOrder B ∧
      (∀ l ∈ A, l.is_active = true) ∧
      (∀ l ∈ B, l.is_active = true ∧ l.is_public = true) :=
  get_all_active_layers_spec exampleGeoStore

/-- The fixed five-layer default catalog seeded by
`GeospatialService.seed_default_layers` (`app/geo_service.py`, lines
247-320), including each layer's name, description, display order and style
record, with the empty feature-collection placeholder as geometry. -/
def default_layers : List StaticLayer :=
  [{ name := "Sawah (Rice Fields)"
     layer_type := .rice_fields
     description := "Peta sebaran lahan sawah di Kabupaten Lombok Barat"
     source := "BIG"
     geom_data := { type := "FeatureCollection", features := [], metadata := none }
     style_properties :=
       { color := "#4CAF50", weight := 2, opacity := 8/10,
         fillColor := some "#81C784", fillOpacity := some (6/10) }
     is_active := true
     display_order := 1 },
   { name := "Irigasi (Irrigation)"
     layer_type := .irrigation
     description := "Jaringan sistem irigasi di Kabupaten Lombok Barat"
     source := "BIG"
     geom_data := { type := "FeatureCollection", features := [], metadata := none }
     style_properties :=
       { color := "#2196F3", weight := 3, opacity := 9/10,
         fillColor := some "#64B5F6", fillOpacity := some (4/10) }
     is_active := true
     display_order := 2 },
   { name := "Jalan Kabupaten (Regency Roads)"
     layer_type := .regency_roads
     description := "Jaringan jalan kabupaten di Lombok Barat"
     source := "BIG"
     geom_data := { type := "FeatureCollection", features := [], metadata := none }
     style_properties :=
       { color := "#FF9800", weight := 4, opacity := 1,
         fillColor := none, fillOpacity := none }
     is_active := true
     display_order := 3 },
   { name := "Batas Kabupaten (Regency Boundaries)"
     layer_type := .regency_boundaries
     description := "Batas administrasi Kabupaten Lombok Barat"
     source := "BIG"
     geom_data := { type := "FeatureCollection", features := [], metadata := none }
     style_properties :=
       { color := "#9C27B0", weight := 3, opacity := 1,
         fillColor := some "#CE93D8", fillOpacity := some (1/10) }
     is_active := true
     display_order := 4 },
   { name := "Batas Desa (Village Boundaries)"
     layer_type := .village_boundaries
     description := "Batas administrasi desa di Kabupaten Lombok Barat"
     source := "BIG"
     geom_data := { type := "FeatureCollection", features := [], metadata := none }
     style_properties :=
       { color := "#607D8B", weight := 2, opacity := 8/10,
         fillColor := some "#90A4AE", fillOpacity := some (2/10) }
     is_active := true
     display_order := 5 }]

/-- Embeds `GeospatialService.seed_default_layers` (`app/geo_service.py`,
lines 238-323): when any static layer already exists the call is a no-op;
otherwise the fixed five-layer catalog is inserted into the empty table. -/
def seed_default_layers (st : GeoStore) : GeoStore :=
  if st.static_layers.isEmpty then { st with static_layers := default_layers } else st

/-- C5: `seedDefaults` is idempotent — with any static layer present it
changes nothing, and seeding twice equals seeding once; from an empty store
it installs exactly the fixed catalog of five layers (rice fields,
irrigation, regency roads, regency boundaries, village boundaries), whose
display orders are precisely 1..5 (pairwise distinct) and whose geometry is
an empty feature collection. -/
theorem seed_default_layers_idempotent (st : GeoStore) :
    (st.static_layers ≠ [] → seed_default_layers st = st) ∧
    seed_default_layers (seed_default_layers st) = seed_default_layers st ∧
    (st.static_layers = [] →
      (seed_default_layers st).static_layers = default_layers) ∧
    default_layers.map (fun l => l.display_order) = [1, 2, 3, 4, 5] ∧
    (default_layers.map (fun l => l.display_order)).Nodup ∧
    default_layers.map (fun l => l.layer_type)
      = [.rice_fields, .irrigation, .regency_roads, .regency_boundaries,
         .village_boundaries] ∧
    (∀ l ∈ default_layers,
      l.geom_data.features = [] ∧ 1 ≤ l.display_order ∧ l.display_order ≤ 5) := by
  refine ⟨fun h => ?_, ?_, fun h => ?_, by decide, by decide, by decide, by decide⟩
  · rw [seed_default_layers, if_neg (by simp [List.isEmpty_iff, h])]
  · by_cases h : st.static_layers.isEmpty
    · have h1 : seed_default_layers st = { st with static_layers := default_layers } := by
        rw [seed_default_layers, if_pos h]
      rw [h1, seed_default_layers,
        if_neg (by simp [default_layers, List.isEmpty_iff])]
    · have h1 : seed_default_layers st = st := by
        rw [seed_default_layers, if_neg h]
      rw [h1]
      exact h1
  · rw [seed_default_layers, if_pos (by simp [List.isEmpty_iff, h])]

/-- An empty layer store. -/
def emptyGeoStore : GeoStore := { static_layers := [], user_layers := [] }

/-- Witness for C5 at the empty store: double seeding equals single seeding,
a non-empty store is left unchanged, and seeding the empty store installs
the catalog. -/
theorem seed_default_layers_idempotent_witness :
    seed_default_layers (seed_default_layers emptyGeoStore)
        = seed_default_layers emptyGeoStore ∧
      seed_default_layers (seed_default_layers emptyGeoStore)
        = seed_default_layers emptyGeoStore ∧
      (seed_default_layers emptyGeoStore).static_layers = default_layers :=
  ⟨(seed_default_layers_idempotent (seed_default_layers emptyGeoStore)).1
      (by decide),
   (seed_default_layers_idempotent emptyGeoStore).2.1,
   (seed_default_layers_idempotent emptyGeoStore).2.2.1 rfl⟩

/-! ## Bounding-box complaint query
(`ComplaintService.get_complaints_in_area`) -/

/-- Embeds `ComplaintPhotoResponse` from `app/models.py` (identity
elided). -/
structure ComplaintPhotoResponse where
  filename : String
  file_path : String
  mime_type : String
  caption : String
  display_order : Int
  deriving DecidableEq, Repr

/-- Embeds `ComplaintResponse` from `app/models.py` (`created_at` kept as
the timestamp it serializes). -/
structure ComplaintResponse where
  id : Nat
  title : String
  description : String
  latitude : ℚ
  longitude : ℚ
  location_description : String
  submitter_name : Option String
  status : ComplaintStatus
  created_at : Nat
  photos : List ComplaintPhotoResponse
  deriving DecidableEq, Repr

/-- The `ComplaintPhotoResponse` built at lines 246-256 of
`app/complaint_service.py`. -/
def photoToResponse (p : ComplaintPhoto) : ComplaintPhotoResponse :=
  { filename := p.filename
    file_path := p.file_path
    mime_type := p.mime_type
    caption := p.caption
    display_order := p.display_order }

/-- Photo display-order ascending, the `ORDER BY display_order` of line
243. -/
def photoOrder (a b : ComplaintPhoto) : Prop := a.display_order ≤ b.display_order

instance : DecidableRel photoOrder := fun a b => by unfold photoOrder; infer_instance

instance : IsTotal ComplaintPhoto photoOrder := ⟨fun _ _ => le_total _ _⟩

instance : IsTrans ComplaintPhoto photoOrder := ⟨fun _ _ _ hab hbc => le_trans hab hbc⟩

/-- Complaint creation time descending, the `ORDER BY created_at DESC` of
line 234. -/
def recencyOrder (a b : Complaint) : Prop := b.created_at ≤ a.created_at

instance : DecidableRel recencyOrder := fun a b => by unfold recencyOrder; infer_instance

instance : IsTotal Complaint recencyOrder := ⟨fun _ _ => le_total _ _⟩

instance : IsTrans Complaint recencyOrder := ⟨fun _ _ _ hab hbc => le_trans hbc hab⟩

/-- The `ComplaintResponse` built at lines 258-271 of
`app/complaint_service.py`, with the complaint's photos ordered by display
order. -/
def complaintToResponse (st : ComplaintStore) (c : Complaint) : ComplaintResponse :=
  { id := c.id
    title := c.title
    description := c.description
    latitude := c.latitude
    longitude := c.longitude
    location_description := c.location_description
    submitter_name := c.submitter_name
    status := c.status
    created_at := c.created_at
    photos := (List.insertionSort photoOrder
        (st.photos.filter (fun p => p.complaint_id == c.id))).map photoToResponse }

/-- The bounding-box containment kernel, inclusive at all four bounds —
the four `WHERE` conditions of `app/complaint_service.py` lines 228-233. -/
def boundingBoxContains (south west north east lat lon : ℚ) : Bool :=
  decide (south ≤ lat) && decide (lat ≤ north)
    && decide (west ≤ lon) && decide (lon ≤ east)

/-- Embeds `ComplaintService.get_complaints_in_area`
(`app/complaint_service.py`, lines 222-273): the complaints whose
coordinates lie in the inclusive bounding box, ordered by creation time
descending, each mapped to a response. -/
def get_complaints_in_area (st : ComplaintStore)
    (south west north east : ℚ) : List ComplaintResponse :=
  (List.insertionSort recencyOrder
      (st.complaints.filter (fun c =>
        boundingBoxContains south west north east c.latitude c.longitude))).map
    (complaintToResponse st)

/-- C7: `listInArea` returns exactly the stored complaints whose
coordinates satisfy `south ≤ lat ≤ north ∧ west ≤ lon ≤ east` (inclusive at
all four bounds), ordered by creation time descending; every returned
complaint lies inside the box and every stored complaint inside the box is
returned, so complaints outside the box never appear. -/
theorem get_complaints_in_area_spec (st : ComplaintStore)
    (south west north east : ℚ) :
    ∃ L : List Complaint,
      get_complaints_in_area st south west north east
          = L.map (complaintToResponse st) ∧
      List.Perm L (st.complaints.filter (fun c =>
        boundingBoxContains south west north east c.latitude c.longitude)) ∧
      List.Sorted recencyOrder L ∧
      (∀ c ∈ L, c ∈ st.complaints ∧
        south ≤ c.latitude ∧ c.latitude ≤ north ∧
        west ≤ c.longitude ∧ c.longitude ≤ east) ∧
      (∀ c ∈ st.complaints,
        south ≤ c.latitude → c.latitude ≤ north →
        west ≤ c.longitude → c.longitude ≤ east → c ∈ L) := by
  refine ⟨List.insertionSort recencyOrder
      (st.complaints.filter (fun c =>
        boundingBoxContains south west north east c.latitude c.longitude)),
    rfl, List.perm_insertionSort _ _, List.sorted_insertionSort _ _, ?_, ?_⟩
  · intro c hc
    have hm := (List.Perm.mem_iff (List.perm_insertionSort _ _)).mp hc
    have h2 := List.mem_filter.mp hm
    refine ⟨h2.1, ?_⟩
    have := h2.2
    simp only [boundingBoxContains, Bool.and_eq_true, decide_eq_true_eq] at this
    exact ⟨this.1.1.1, this.1.1.2, this.1.2, this.2⟩
  · intro c hc h1 h2 h3 h4
    rw [List.Perm.mem_iff (List.perm_insertionSort _ _)]
    refine List.mem_filter.mpr ⟨hc, ?_⟩
    simp only [boundingBoxContains, Bool.and_eq_true, decide_eq_true_eq]
    exact ⟨⟨⟨h1, h2⟩, h3⟩, h4⟩

/-- A concrete complaint store with one complaint inside the West Lombok
bounds and one outside at (−7.0, 117.0), for witnesses. -/
def exampleAreaStore : ComplaintStore :=
  { complaints :=
      [exampleComplaint,
       { exampleComplaint with
          id := 2
          title := "Outside"
          latitude := -7
          longitude := 117
          created_at := 5 }]
    photos := []
    files := [] }

/-- Witness for C7: the characterization instantiated at the concrete store
and the fixed region bounds (south −8.8, west 115.9, north −8.3,
east 116.4). -/
theorem get_complaints_in_area_spec_witness :
    ∃ L : List Complaint,
      get_complaints_in_area exampleAreaStore (-88/10) (1159/10) (-83/10) (1164/10)
          = L.map (complaintToResponse exampleAreaStore) ∧
      List.Perm L (exampleAreaStore.complaints.filter (fun c =>
        boundingBoxContains (-88/10) (1159/10) (-83/10) (1164/10)
          c.latitude c.longitude)) ∧
      List.Sorted recencyOrder L ∧
      (∀ c ∈ L, c ∈ exampleAreaStore.complaints ∧
        -88/10 ≤ c.latitude ∧ c.latitude ≤ -83/10 ∧
        1159/10 ≤ c.longitude ∧ c.longitude ≤ 1164/10) ∧
      (∀ c ∈ exampleAreaStore.complaints,
        -88/10 ≤ c.latitude → c.latitude ≤ -83/10 →
        1159/10 ≤ c.longitude → c.longitude ≤ 1164/10 → c ∈ L) :=
  get_complaints_in_area_spec exampleAreaStore (-88/10) (1159/10) (-83/10) (1164/10)

end Sigades
